import Mathlib

/-!
Verification of the S3 storage adapter of Meteor-cfs-s3 (src/s3.server.js).

The JavaScript source is shallowly embedded in Lean:

* the folder (key-prefix) normalization of the constructor (lines 73-84) is a
  pure function on the folder option;
* the adapter closures capture a `StoreConfig` (folder option, bucket name,
  ACL option), mirroring the variables `folder`, `bucket`, `defaultAcl`;
* `fileKey` (lines 113-130) is a pure function of the store name, the
  optional caller-supplied key function, and the file record;
* `createReadStream` (lines 131-170) is modelled as a fold over the sequence
  of backend attempt outcomes: each attempt to `S3.createReadStream` either
  emits some data chunks and then ends, or emits some data chunks and then an
  error event.  The fold tracks what the wrapper pushes/emits on the output
  stream `out` and how many backend failures it consumes;
* `createWriteStream` (lines 175-198) is the construction of the put-object
  parameter set handed to `S3.createWriteStream`;
* `remove` (lines 199-207) is the delete request handed to `S3.deleteObject`
  together with the callback's arguments as a function of the backend error;
* `watch` (lines 208-210) always throws.

JavaScript truthiness matters in several places (`info && info.key`,
`filenameInStore || filename`, `options.ACL || 'private'`,
`if (options.contentType)`): an absent value and the empty string are both
falsy.  Absence is modelled with `Option`, and the truthiness tests are
embedded explicitly (`jsOr`, `jsTruthy`, `recordedKey`).
-/

namespace CfsS3

/-- Folder (key-prefix) normalization of src/s3.server.js lines 74-84, on the
character sequence of a folder string: if the sequence is non-empty, strip a
single leading slash if present (`folder.slice(0, 1) === "/"` /
`folder.slice(1)`), then append a trailing slash unless the last character is
already a slash (`folder.slice(-1) !== "/"`); an empty sequence yields the
empty sequence. -/
def normalizeFolderChars (l : List Char) : List Char :=
  if l.length ≠ 0 then
    let l1 := if l.take 1 = ['/'] then l.drop 1 else l
    if l1.getLast? ≠ some '/' then l1 ++ ['/'] else l1
  else []

/-- The `options.folder` constructor option: a string, a non-string value, or
absent (`typeof folder === "string" && folder.length` guards the
normalization). -/
inductive FolderOption where
  | str (s : String)
  | nonString
  | absent
  deriving DecidableEq

/-- The folder prefix computed by the constructor (lines 73-84): non-string or
absent folder options (and the empty string, which fails the
`folder.length` truthiness test) give the empty prefix, otherwise the
character-level normalization applies. -/
def normalizeFolder : FolderOption → String
  | FolderOption.str s => String.mk (normalizeFolderChars s.data)
  | FolderOption.nonString => ""
  | FolderOption.absent => ""

/-- JavaScript `a || b` for a possibly-absent string `a`: `a` when present and
non-empty (truthy), else `b`. -/
def jsOr (a : Option String) (b : String) : String :=
  match a with
  | some s => if s = "" then b else s
  | none => b

/-- JavaScript truthiness of a possibly-absent string value: present and
non-empty. -/
def jsTruthy : Option String → Bool
  | some s => s != ""
  | none => false

/-- The configuration captured by the adapter's closures: the raw `folder`
option, the `bucket` name (line 86), and the optional `ACL` option
(line 90). -/
structure StoreConfig where
  folder : FolderOption
  bucket : String
  ACL : Option String
  deriving DecidableEq

/-- The folder prefix in scope in `createReadStream`, `createWriteStream` and
`remove` (the `folder` variable of lines 73-84). -/
def storeFolder (c : StoreConfig) : String := normalizeFolder c.folder

/-- Line 90: `var defaultAcl = options.ACL || 'private';`. -/
def defaultAcl (c : StoreConfig) : String := jsOr c.ACL "private"

/-- The per-store info record returned by `fileObj._getInfo(name)`: it may
carry a previously assigned `key`. -/
structure StoreInfo where
  key : Option String
  deriving DecidableEq

/-- The external file record read by `fileKey` (lines 113-130): the per-store
info (`_getInfo(name)`, possibly absent), the generic name (`fileObj.name()`),
the store-specific name (`fileObj.name({store: name})`, possibly absent), the
collection name and the record id (`_id`). -/
structure FileObj where
  info : Option StoreInfo
  name : String
  nameInStore : Option String
  collectionName : String
  _id : String
  deriving DecidableEq

/-- The context object passed to a caller-supplied key function on line 123:
`{name: name, info: info}`. -/
structure KeyContext where
  name : String
  info : Option StoreInfo

/-- Line 115-117: `info && info.key` — the recorded key, when the info record
is present and its `key` is truthy (present and non-empty). -/
def recordedKey (fileObj : FileObj) : Option String :=
  match fileObj.info with
  | some i =>
    match i.key with
    | some k => if k = "" then none else some k
    | none => none
  | none => none

/-- The `fileKey` operation of lines 113-130: return the recorded key when
truthy; else defer to the caller-supplied key function (lines 122-126) with
the `{name, info}` context; else generate
`collectionName + '/' + _id + '-' + (filenameInStore || filename)`
(line 129). -/
def fileKey (storeName : String)
    (fileKeyOpt : Option (FileObj → KeyContext → String))
    (fileObj : FileObj) : String :=
  match recordedKey fileObj with
  | some k => k
  | none =>
    match fileKeyOpt with
    | some f => f fileObj ⟨storeName, fileObj.info⟩
    | none =>
      fileObj.collectionName ++ "/" ++ fileObj._id ++ "-" ++
        jsOr fileObj.nameInStore fileObj.name

/-- Terminal event of one backend read-stream attempt: the backend stream
either ends normally or emits an error event. -/
inductive Outcome where
  | ok
  | err
  deriving DecidableEq

/-- One backend read-stream attempt (one call of `startStream`, lines
143-167): the data chunks the backend stream emits before its terminal
event, and the terminal event itself. -/
structure Attempt where
  chunks : List String
  outcome : Outcome
  deriving DecidableEq

/-- Observable behaviour of the output stream `out` of `createReadStream`:
the data chunks pushed (`out.push(data)`), the number of error events emitted
(`out.emit('error', ...)`), whether end-of-stream was pushed
(`out.push(null)`), the number of backend failures consumed, and whether the
run reached a terminal event (as opposed to running out of modelled backend
attempts while a retry is still pending). -/
structure ReadResult where
  pushed : List String
  errors : Nat
  ended : Bool
  failures : Nat
  terminated : Bool
  deriving DecidableEq

/-- The retry loop of lines 142-168, folded over the backend attempts with the
`triesLeft` counter.  A successful attempt forwards its chunks and ends the
output stream (lines 161-166).  A failing attempt forwards its chunks, then:
if `triesLeft <= 0`, one terminal error is emitted and the output stream is
closed (lines 150-156); otherwise `startStream` is retried with `triesLeft`
decremented (lines 157-159). -/
def runRead (triesLeft : Int) : List Attempt → ReadResult
  | [] => ⟨[], 0, false, 0, false⟩
  | a :: rest =>
    match a.outcome with
    | Outcome.ok => ⟨a.chunks, 0, true, 0, true⟩
    | Outcome.err =>
      if triesLeft ≤ 0 then
        ⟨a.chunks, 1, true, 1, true⟩
      else
        ⟨a.chunks ++ (runRead (triesLeft - 1) rest).pushed,
         (runRead (triesLeft - 1) rest).errors,
         (runRead (triesLeft - 1) rest).ended,
         (runRead (triesLeft - 1) rest).failures + 1,
         (runRead (triesLeft - 1) rest).terminated⟩

/-- Caller options of `createReadStream` before the merge of lines 132-135. -/
structure ReadOptions where
  tries : Option Int
  tryFreq : Option Int
  deriving DecidableEq

/-- Lines 132-135: `_.extend({tries: 3, tryFreq: 1000}, options)` — the
effective tries count. -/
def mergedTries (o : ReadOptions) : Int := o.tries.getD 3

/-- Lines 132-135: the effective retry delay in milliseconds. -/
def mergedTryFreq (o : ReadOptions) : Int := o.tryFreq.getD 1000

/-- The observable behaviour of the stream returned by `createReadStream`
(lines 131-170), given the sequence of backend attempt outcomes. -/
def createReadStream (o : ReadOptions) (attempts : List Attempt) : ReadResult :=
  runRead (mergedTries o) attempts

/-- A `{Bucket, Key}` pair handed to the backend client. -/
structure ObjectRef where
  Bucket : String
  Key : String
  deriving DecidableEq

/-- The request of lines 144-148: `S3.createReadStream({Bucket: bucket,
Key: folder + fileKey})`. -/
def readRequest (c : StoreConfig) (fk : String) : ObjectRef :=
  ⟨c.bucket, storeFolder c ++ fk⟩

/-- Caller options of `createWriteStream` before normalization (lines
175-195).  `metadata` is kept opaque. -/
structure WriteOptions where
  contentType : Option String
  ContentType : Option String
  aliases : Option (List String)
  metadata : Option String
  Bucket : Option String
  Key : Option String
  fileKey : Option String
  ACL : Option String
  deriving DecidableEq

/-- Lines 178-187: copy a truthy `contentType` onto `ContentType`
(lines 178-180), then delete `aliases`, `contentType` and `metadata`
(lines 182-187). -/
def normalizedWriteOptions (o : WriteOptions) : WriteOptions :=
  ⟨none,
   if jsTruthy o.contentType then o.contentType else o.ContentType,
   none,
   none,
   o.Bucket, o.Key, o.fileKey, o.ACL⟩

/-- The parameter set handed to `S3.createWriteStream` on line 197. -/
structure PutParams where
  Bucket : String
  Key : String
  fileKey : String
  ACL : String
  ContentType : Option String
  aliases : Option (List String)
  metadata : Option String
  contentType : Option String
  deriving DecidableEq

/-- Lines 190-197: `FS.Utility.extend({Bucket: bucket, Key: folder + fileKey,
fileKey: fileKey, ACL: defaultAcl}, options)` applied to the normalized
options — a caller-supplied value wins over the default for each of the four
defaulted fields. -/
def createWriteStream (c : StoreConfig) (fk : String) (o0 : WriteOptions) :
    PutParams :=
  let o := normalizedWriteOptions o0
  ⟨o.Bucket.getD c.bucket,
   o.Key.getD (storeFolder c ++ fk),
   o.fileKey.getD fk,
   o.ACL.getD (defaultAcl c),
   o.ContentType, o.aliases, o.metadata, o.contentType⟩

/-- The `remove` operation of lines 199-207: the delete request handed to
`S3.deleteObject` (`{Bucket: bucket, Key: folder + fileKey}`) together with
the callback arguments `(error, !error)` as a function of the backend
error. -/
def remove (c : StoreConfig) (fk : String) (backendError : Option String) :
    ObjectRef × Option String × Bool :=
  (⟨c.bucket, storeFolder c ++ fk⟩, backendError, backendError.isNone)

/-- The `watch` operation of lines 208-210: it unconditionally throws, doing
nothing else. -/
def watch (_c : StoreConfig) : Except String Unit :=
  Except.error "S3 storage adapter does not support the sync option"

/-- Helper: the put-object parameters of `createWriteStream`, field by
field. -/
theorem createWriteStream_eq (c : StoreConfig) (fk : String) (o : WriteOptions) :
    createWriteStream c fk o =
      ⟨o.Bucket.getD c.bucket,
       o.Key.getD (storeFolder c ++ fk),
       o.fileKey.getD fk,
       o.ACL.getD (defaultAcl c),
       if jsTruthy o.contentType then o.contentType else o.ContentType,
       none, none, none⟩ := rfl

/-- Claim C9 (confirmed): for every configuration, the watch/sync operation
fails immediately with a "not supported" error and performs no other work —
the embedded `watch` is exactly that error. -/
theorem watch_unsupported (c : StoreConfig) :
    watch c = Except.error
      "S3 storage adapter does not support the sync option" := rfl

/-- Claim C8 (confirmed): `remove` issues exactly one delete against
`bucketPrefix + key` (the single request of the embedding), and invokes the
callback with `(error, success)` where success holds iff the backend reported
no error; any backend error, a not-found error included, is forwarded
unchanged with success false. -/
theorem remove_spec (c : StoreConfig) (fk : String) (e : Option String) :
    (remove c fk e).1 = ⟨c.bucket, storeFolder c ++ fk⟩ ∧
    (remove c fk e).2.1 = e ∧
    ((remove c fk e).2.2 = true ↔ e = none) := by
  refine ⟨rfl, rfl, ?_⟩
  cases e <;> simp [remove]

/-- Claim C2 (confirmed): with the default options (`tries = 3`), a backend
that fails on its first two open attempts (no data) and succeeds on the third
delivers the full successful payload, ends the stream, and emits no error. -/
theorem read_failTwiceThenOk_delivers (payload : List String) :
    createReadStream ⟨none, none⟩
        [⟨[], Outcome.err⟩, ⟨[], Outcome.err⟩, ⟨payload, Outcome.ok⟩] =
      ⟨payload, 0, true, 2, true⟩ := rfl

/-- Counterexample to claim C1: with `tries = 1` and a backend that fails on
every attempt, no terminal error has been emitted after 1 backend failure
(the wrapper is still retrying); the single terminal error is emitted only
after 2 backend failures. -/
theorem read_allFail_cex :
    (createReadStream ⟨some 1, none⟩ [⟨[], Outcome.err⟩]).errors = 0 ∧
    (createReadStream ⟨some 1, none⟩
      [⟨[], Outcome.err⟩, ⟨[], Outcome.err⟩]).errors = 1 ∧
    (createReadStream ⟨some 1, none⟩
      [⟨[], Outcome.err⟩, ⟨[], Outcome.err⟩]).failures = 2 := by
  refine ⟨rfl, rfl, rfl⟩

/-- Helper for the amended claim C1: with `tries = N`, a backend failing on
every attempt produces exactly one terminal error after `N + 1` backend
failures, an ended stream, and no data pushed. -/
theorem runRead_allFail (N : Nat) :
    ∀ attempts : List Attempt,
      (∀ a ∈ attempts, a.chunks = [] ∧ a.outcome = Outcome.err) →
      attempts.length = N + 1 →
      runRead (N : Int) attempts = ⟨[], 1, true, N + 1, true⟩ := by
  induction N with
  | zero =>
    intro attempts hf hl
    match attempts, hl with
    | [a], _ =>
      obtain ⟨hc, ho⟩ := hf a (by simp)
      simp [runRead, ho, hc]
  | succ n ih =>
    intro attempts hf hl
    match attempts with
    | a :: rest =>
      obtain ⟨hc, ho⟩ := hf a (by simp)
      have hrest : ∀ b ∈ rest, b.chunks = [] ∧ b.outcome = Outcome.err :=
        fun b hb => hf b (by simp [hb])
      have hlen : rest.length = n + 1 := by simpa using hl
      have hpos : ¬ ((n + 1 : Nat) : Int) ≤ 0 := by
        push_cast
        omega
      have hcast : ((n + 1 : Nat) : Int) - 1 = (n : Int) := by
        push_cast
        ring
      have hih := ih rest hrest hlen
      simp only [runRead, ho, hc, hpos, if_false, hcast, hih]
      simp

/-- Claim C1 (corrected): for a backend read stream failing on every attempt
with the retry option `tries = N`, the returned stream emits exactly one
terminal error — but only after `N + 1` backend failures (the initial attempt
plus `N` retries), not after `N` — and pushes no data. -/
theorem read_allFail_terminal (N : Nat) (attempts : List Attempt)
    (hfail : ∀ a ∈ attempts, a.chunks = [] ∧ a.outcome = Outcome.err)
    (hlen : attempts.length = N + 1) :
    createReadStream ⟨some (N : Int), none⟩ attempts =
      ⟨[], 1, true, N + 1, true⟩ :=
  runRead_allFail N attempts hfail hlen

/-- Witness for `read_allFail_terminal` at `N = 2` and three failing
attempts. -/
theorem read_allFail_terminal_wit :
    createReadStream ⟨some ((2 : Nat) : Int), none⟩
        [⟨[], Outcome.err⟩, ⟨[], Outcome.err⟩, ⟨[], Outcome.err⟩] =
      ⟨[], 1, true, 2 + 1, true⟩ :=
  read_allFail_terminal 2 _ (by decide) (by decide)

/-- Helper for claim C3: whenever the retry loop reaches a terminal event, the
output stream is closed, and either an error was emitted or some successful
attempt's complete chunk list forms the tail of the pushed output. -/
theorem runRead_terminal (attempts : List Attempt) :
    ∀ t : Int,
      (runRead t attempts).terminated = true →
      (runRead t attempts).ended = true ∧
      ((runRead t attempts).errors = 1 ∨
        ∃ a, a ∈ attempts ∧ a.outcome = Outcome.ok ∧
          ∃ junk, (runRead t attempts).pushed = junk ++ a.chunks) := by
  induction attempts with
  | nil =>
    intro t h
    simp [runRead] at h
  | cons a rest ih =>
    intro t h
    cases ho : a.outcome with
    | ok =>
      refine ⟨by simp [runRead, ho], Or.inr ⟨a, by simp, ho, [], by simp [runRead, ho]⟩⟩
    | err =>
      by_cases ht : t ≤ 0
      · exact ⟨by simp [runRead, ho, ht], Or.inl (by simp [runRead, ho, ht])⟩
      · have hterm : (runRead (t - 1) rest).terminated = true := by
          simpa [runRead, ho, ht] using h
        obtain ⟨hend, hcase⟩ := ih (t - 1) hterm
        refine ⟨by simp [runRead, ho, ht, hend], ?_⟩
        rcases hcase with herr | ⟨b, hb, hbo, junk, hp⟩
        · exact Or.inl (by simp [runRead, ho, ht, herr])
        · exact Or.inr ⟨b, List.mem_cons_of_mem _ hb, hbo, a.chunks ++ junk,
            by simp [runRead, ho, ht, hp]⟩

/-- Claim C3 (confirmed): for every sequence of backend attempt outcomes on
which the wrapper reaches a terminal event, the stream returned by
`createReadStream` is closed with either a terminal error or the complete
byte sequence of a successful backend attempt as the tail of its output
(possibly after duplicated leading bytes from earlier failed attempts); it
never ends silently with truncated output and no error. -/
theorem read_no_silent_truncation (o : ReadOptions) (attempts : List Attempt)
    (h : (createReadStream o attempts).terminated = true) :
    (createReadStream o attempts).ended = true ∧
    ((createReadStream o attempts).errors = 1 ∨
      ∃ a, a ∈ attempts ∧ a.outcome = Outcome.ok ∧
        ∃ junk, (createReadStream o attempts).pushed = junk ++ a.chunks) :=
  runRead_terminal attempts (mergedTries o) h

/-- Witness for `read_no_silent_truncation`: a run with one failure and then a
successful attempt. -/
theorem read_no_silent_truncation_wit :
    (createReadStream ⟨some 3, none⟩
        [⟨["p"], Outcome.err⟩, ⟨["x", "y"], Outcome.ok⟩]).ended = true ∧
    ((createReadStream ⟨some 3, none⟩
        [⟨["p"], Outcome.err⟩, ⟨["x", "y"], Outcome.ok⟩]).errors = 1 ∨
      ∃ a, a ∈ [Attempt.mk ["p"] Outcome.err, Attempt.mk ["x", "y"] Outcome.ok] ∧
        a.outcome = Outcome.ok ∧
        ∃ junk, (createReadStream ⟨some 3, none⟩
          [⟨["p"], Outcome.err⟩, ⟨["x", "y"], Outcome.ok⟩]).pushed =
            junk ++ a.chunks) :=
  read_no_silent_truncation ⟨some 3, none⟩
    [⟨["p"], Outcome.err⟩, ⟨["x", "y"], Outcome.ok⟩] rfl

/-- Counterexample to claim C4: a file record whose recorded key for the store
is the empty string.  The empty string is a recorded key, yet `fileKey`
(mirroring the falsy test `info && info.key`) ignores it and generates a
fresh key instead of returning it. -/
theorem fileKey_recorded_cex :
    (FileObj.mk (some ⟨some ""⟩) "generic" none "coll" "idA").info =
      some ⟨some ""⟩ ∧
    fileKey "store1" none ⟨some ⟨some ""⟩, "generic", none, "coll", "idA"⟩ =
      "coll/idA-generic" ∧
    fileKey "store1" none ⟨some ⟨some ""⟩, "generic", none, "coll", "idA"⟩ ≠
      "" := by
  refine ⟨rfl, rfl, by decide⟩

/-- Claim C4 (corrected): for every file record whose recorded key for this
store is non-empty, the key resolver returns exactly that key, whether or not
an override key function is configured; re-resolving the same record and
store yields the same key since the resolver is a pure function of them. -/
theorem fileKey_recorded (storeName : String)
    (ov : Option (FileObj → KeyContext → String)) (fo : FileObj)
    (i : StoreInfo) (k : String)
    (hinfo : fo.info = some i) (hkey : i.key = some k) (hne : k ≠ "") :
    fileKey storeName ov fo = k := by
  simp [fileKey, recordedKey, hinfo, hkey, hne]

/-- Witness for `fileKey_recorded` on a record with recorded key `k1`. -/
theorem fileKey_recorded_wit :
    fileKey "s" none ⟨some ⟨some "k1"⟩, "n", none, "c", "i"⟩ = "k1" :=
  fileKey_recorded "s" none _ ⟨some "k1"⟩ "k1" rfl rfl (by decide)

/-- Counterexample to claim C5: a record with no recorded key, no override
function, and an existing but empty store-specific name.  The claim's key
would be "c/i-" (collection, id, and the empty store-specific name), but the
resolver (mirroring `filenameInStore || filename`) falls back to the generic
name and returns "c/i-gen". -/
theorem fileKey_generated_cex :
    (FileObj.mk none "gen" (some "") "c" "i").nameInStore = some "" ∧
    fileKey "s" none ⟨none, "gen", some "", "c", "i"⟩ = "c/i-gen" ∧
    fileKey "s" none ⟨none, "gen", some "", "c", "i"⟩ ≠ "c/i-" := by
  refine ⟨rfl, rfl, by decide⟩

/-- Claim C5 (corrected): for every file record with no previously recorded
key for the store and no override key function, the resolver returns
`collectionName ++ "/" ++ id ++ "-" ++ filename`, where `filename` is the
store-specific name when a non-empty one exists, else the record's generic
name (an empty store-specific name is treated as absent). -/
theorem fileKey_generated (storeName : String) (fo : FileObj)
    (hnokey : fo.info = none ∨ ∃ i, fo.info = some i ∧ i.key = none) :
    (∀ s, fo.nameInStore = some s → s ≠ "" →
      fileKey storeName none fo =
        fo.collectionName ++ "/" ++ fo._id ++ "-" ++ s) ∧
    ((fo.nameInStore = none ∨ fo.nameInStore = some "") →
      fileKey storeName none fo =
        fo.collectionName ++ "/" ++ fo._id ++ "-" ++ fo.name) := by
  have hrec : recordedKey fo = none := by
    rcases hnokey with h | ⟨i, hi, hk⟩
    · simp [recordedKey, h]
    · simp [recordedKey, hi, hk]
  constructor
  · intro s hs hne
    simp [fileKey, hrec, jsOr, hs, hne]
  · intro hcase
    rcases hcase with h | h <;> simp [fileKey, hrec, jsOr, h]

/-- Witness for `fileKey_generated` on a record with a non-empty
store-specific name. -/
theorem fileKey_generated_wit :
    fileKey "s" none ⟨none, "gen", some "st", "c", "i"⟩ =
      "c" ++ "/" ++ "i" ++ "-" ++ "st" :=
  (fileKey_generated "s" ⟨none, "gen", some "st", "c", "i"⟩
    (Or.inl rfl)).1 "st" rfl (by decide)

/-- Claim C6 (confirmed): for every file record with no previously recorded
key for the store, a configured override key function is invoked with the
file record and a context holding the store name and the existing per-store
info, and its result is returned verbatim. -/
theorem fileKey_override_spec (storeName : String)
    (f : FileObj → KeyContext → String) (fo : FileObj)
    (hnokey : fo.info = none ∨ ∃ i, fo.info = some i ∧ i.key = none) :
    fileKey storeName (some f) fo = f fo ⟨storeName, fo.info⟩ := by
  have hrec : recordedKey fo = none := by
    rcases hnokey with h | ⟨i, hi, hk⟩
    · simp [recordedKey, h]
    · simp [recordedKey, hi, hk]
  simp [fileKey, hrec]

/-- Witness for `fileKey_override_spec` with a concrete override function
that reads both the context's store name and the record's id. -/
theorem fileKey_override_wit :
    fileKey "s" (some fun fo ctx => ctx.name ++ ":" ++ fo._id)
        ⟨none, "n", none, "c", "i"⟩ = "s" ++ ":" ++ "i" :=
  fileKey_override_spec "s" (fun fo ctx => ctx.name ++ ":" ++ fo._id)
    ⟨none, "n", none, "c", "i"⟩ (Or.inl rfl)

/-- Counterexample to claim C7: a caller options object whose `contentType`
is the empty string.  The claim requires the caller-supplied value to appear
as `ContentType`, but the empty string fails the truthy test
`if (options.contentType)` and is dropped, so the resulting parameters carry
no `ContentType`. -/
theorem writeParams_contentType_cex :
    (WriteOptions.mk (some "") none none none none none none none).contentType =
      some "" ∧
    (createWriteStream ⟨FolderOption.absent, "b", none⟩ "k"
        ⟨some "", none, none, none, none, none, none, none⟩).ContentType ≠
      some "" := by
  refine ⟨rfl, by decide⟩

/-- Claim C7 (corrected): for every caller options object, the put-object
parameters built by `createWriteStream` carry a caller-supplied non-empty
`contentType` value as `ContentType` (an empty `contentType` is falsy and is
dropped); the `aliases`, `metadata` and `contentType` options are absent from
the parameters; and the defaults `Bucket` (configured bucket), `Key`
(prefix + key) and `ACL` (configured default) are merged under the caller's
options, caller-supplied values winning. -/
theorem writeParams_spec (c : StoreConfig) (fk : String) (o : WriteOptions) :
    (∀ s, o.contentType = some s → s ≠ "" →
      (createWriteStream c fk o).ContentType = some s) ∧
    (createWriteStream c fk o).aliases = none ∧
    (createWriteStream c fk o).metadata = none ∧
    (createWriteStream c fk o).contentType = none ∧
    (o.Bucket = none → (createWriteStream c fk o).Bucket = c.bucket) ∧
    (∀ b, o.Bucket = some b → (createWriteStream c fk o).Bucket = b) ∧
    (o.Key = none → (createWriteStream c fk o).Key = storeFolder c ++ fk) ∧
    (∀ k, o.Key = some k → (createWriteStream c fk o).Key = k) ∧
    (o.ACL = none → (createWriteStream c fk o).ACL = defaultAcl c) ∧
    (∀ a, o.ACL = some a → (createWriteStream c fk o).ACL = a) := by
  rw [createWriteStream_eq]
  refine ⟨?_, rfl, rfl, rfl, ?_, ?_, ?_, ?_, ?_, ?_⟩
  · intro s hs hne
    simp [hs, jsTruthy, hne]
  · intro h
    simp [h]
  · intro b hb
    simp [hb]
  · intro h
    simp [h]
  · intro k hk
    simp [hk]
  · intro h
    simp [h]
  · intro a ha
    simp [ha]

/-- Witness for `writeParams_spec`: a caller supplying a non-empty content
type, an alias list and metadata, over a store with folder "f". -/
theorem writeParams_spec_wit :
    (createWriteStream ⟨FolderOption.str "f", "buck", none⟩ "key"
        ⟨some "text/plain", none, some ["a"], some "m",
         none, none, none, none⟩).ContentType = some "text/plain" ∧
    (createWriteStream ⟨FolderOption.str "f", "buck", none⟩ "key"
        ⟨some "text/plain", none, some ["a"], some "m",
         none, none, none, none⟩).aliases = none ∧
    (createWriteStream ⟨FolderOption.str "f", "buck", none⟩ "key"
        ⟨some "text/plain", none, some ["a"], some "m",
         none, none, none, none⟩).Key =
      storeFolder ⟨FolderOption.str "f", "buck", none⟩ ++ "key" := by
  have h := writeParams_spec ⟨FolderOption.str "f", "buck", none⟩ "key"
    ⟨some "text/plain", none, some ["a"], some "m", none, none, none, none⟩
  exact ⟨h.1 "text/plain" rfl (by decide), h.2.1, h.2.2.2.2.2.2.1 rfl⟩

/-- Helper: the normalized folder character sequence ends with a slash when
non-empty. -/
theorem normalizeFolderChars_last (l : List Char)
    (h : normalizeFolderChars l ≠ []) :
    (normalizeFolderChars l).getLast? = some '/' := by
  unfold normalizeFolderChars at h ⊢
  by_cases hl : l.length ≠ 0
  · rw [if_pos hl] at h ⊢
    by_cases hlast :
        (if l.take 1 = ['/'] then l.drop 1 else l).getLast? ≠ some '/'
    · rw [if_pos hlast]
      exact List.getLast?_concat _
    · rw [if_neg hlast]
      exact not_not.mp hlast
  · rw [if_neg hl] at h
    exact absurd rfl h

/-- Helper: only one leading slash is stripped, so the normalized folder
character sequence starts with a slash only when the folder was exactly "/"
or started with two slashes. -/
theorem normalizeFolderChars_head (l : List Char)
    (h : (normalizeFolderChars l).head? = some '/') :
    l = ['/'] ∨ l.take 2 = ['/', '/'] := by
  match l with
  | [] => simp [normalizeFolderChars] at h
  | c :: t =>
    by_cases hc : c = '/'
    · subst hc
      match t with
      | [] => exact Or.inl rfl
      | d :: t2 =>
        by_cases hd : d = '/'
        · subst hd
          exact Or.inr rfl
        · exfalso
          by_cases hlast : (d :: t2).getLast? = some '/'
          · have heq : normalizeFolderChars ('/' :: d :: t2) = d :: t2 := by
              simp [normalizeFolderChars, hlast]
            rw [heq] at h
            simp at h
            exact hd h
          · have heq : normalizeFolderChars ('/' :: d :: t2) =
                (d :: t2) ++ ['/'] := by
              simp [normalizeFolderChars, hlast]
            rw [heq] at h
            simp at h
            exact hd h
    · exfalso
      by_cases hlast : (c :: t).getLast? = some '/'
      · have heq : normalizeFolderChars (c :: t) = c :: t := by
          simp [normalizeFolderChars, hc, hlast]
        rw [heq] at h
        simp at h
        exact hc h
      · have heq : normalizeFolderChars (c :: t) = (c :: t) ++ ['/'] := by
          simp [normalizeFolderChars, hc, hlast]
        rw [heq] at h
        simp at h
        exact hc h

/-- Counterexample to claim C10: the folder option "/" normalizes to the
prefix "/", which begins with "/" — only a single leading slash is stripped
before the trailing slash is re-appended. -/
theorem folder_cex :
    normalizeFolder (FolderOption.str "/") = "/" ∧
    (normalizeFolder (FolderOption.str "/")).data.head? = some '/' := by
  refine ⟨rfl, rfl⟩

/-- Claim C10 (corrected): the prefix prepended to keys in the read, write and
remove operations always ends with "/" when non-empty and is empty when the
folder option is absent, empty or not a string; but it is normalized by
stripping at most one leading "/", so it can still begin with "/" — exactly
when the folder option is the string "/" or starts with "//". -/
theorem folder_invariants (v : FolderOption) :
    (normalizeFolder v ≠ "" →
      (normalizeFolder v).data.getLast? = some '/') ∧
    ((v = FolderOption.absent ∨ v = FolderOption.nonString ∨
        v = FolderOption.str "") → normalizeFolder v = "") ∧
    (∀ s, v = FolderOption.str s →
      (normalizeFolder v).data.head? = some '/' →
      s = "/" ∨ s.data.take 2 = ['/', '/']) ∧
    (∀ (b : String) (acl : Option String) (fk : String),
      readRequest ⟨v, b, acl⟩ fk = ⟨b, normalizeFolder v ++ fk⟩ ∧
      (remove ⟨v, b, acl⟩ fk none).1 = ⟨b, normalizeFolder v ++ fk⟩ ∧
      (∀ o : WriteOptions, o.Key = none →
        (createWriteStream ⟨v, b, acl⟩ fk o).Key =
          normalizeFolder v ++ fk)) := by
  refine ⟨?_, ?_, ?_, ?_⟩
  · cases v with
    | str s =>
      intro hne
      apply normalizeFolderChars_last
      intro hnil
      apply hne
      show String.mk (normalizeFolderChars s.data) = ""
      rw [hnil]
    | nonString => intro hne; exact absurd rfl hne
    | absent => intro hne; exact absurd rfl hne
  · rintro (rfl | rfl | rfl) <;> rfl
  · rintro s rfl hhead
    have hl := normalizeFolderChars_head s.data hhead
    rcases hl with h | h
    · exact Or.inl (congrArg String.mk h)
    · exact Or.inr h
  · intro b acl fk
    refine ⟨rfl, rfl, ?_⟩
    intro o ho
    rw [createWriteStream_eq]
    simp [ho, storeFolder]

/-- Witness for `folder_invariants` at the folder option "a": the prefix is
non-empty and ends with "/", and the remove request key is the prefix
followed by the file key. -/
theorem folder_invariants_wit :
    (normalizeFolder (FolderOption.str "a")).data.getLast? = some '/' ∧
    (remove ⟨FolderOption.str "a", "b", none⟩ "k" none).1 =
      ⟨"b", normalizeFolder (FolderOption.str "a") ++ "k"⟩ := by
  have h := folder_invariants (FolderOption.str "a")
  exact ⟨h.1 (by decide), (h.2.2.2 "b" none "k").2.1⟩

end CfsS3
